import Mathlib

/-!
Verification of the filewatch watch-session engine (FileWatch.hpp).

The C++ header is shallowly embedded: strings become `List Char`, the
inotify / ReadDirectoryChangesW notification buffers become lists of decoded
records, C++ exceptions become `Except`/outcome values, and the two-thread
dispatcher/monitor interaction becomes a small-step transition system over an
explicit shared state.
-/

namespace Filewatch

/-- The portable event vocabulary (`enum class Event` in FileWatch.hpp). -/
inductive Event where
  | added
  | removed
  | modified
  | renamed_old
  | renamed_new
deriving DecidableEq

/-- Strings of the C++ template parameter `T` are embedded as `List Char`. -/
def toL (s : String) : List Char := s.data

/-- Path separator predicate of `split_directory_and_file` on the unix target:
`character == '/'`. -/
def unixIsSep (c : Char) : Bool := c = '/'

/-- Path separator predicate of `split_directory_and_file` on the Windows
target: `character == '\\' || character == '/'`. -/
def winIsSep (c : Char) : Bool := c = '\\' || c = '/'

/-- Result type of `split_directory_and_file` (`struct PathParts`). -/
structure PathParts where
  directory : List Char
  filename : List Char
deriving DecidableEq

/-- The default directory `"./"` inserted when the path has no separator. -/
def this_directory : List Char := toL "./"

/-- Embedding of `std::find_if(first, last, p)` on a character sequence,
returning the index of the first element satisfying `p` (or `none`). -/
def find_if_idx (p : Char → Bool) : List Char → Option Nat
  | [] => none
  | c :: rest => if p c then some 0 else (find_if_idx p rest).map (· + 1)

/-- The pivot of `split_directory_and_file`:
`std::find_if(path.rbegin(), path.rend(), predict).base()` as a forward index.
A reverse find hitting reverse index `r` corresponds to the forward iterator
`length - r`; `rend()` (not found) gives `begin()`, i.e. `0`. -/
def pivotIdx (isSep : Char → Bool) (path : List Char) : Nat :=
  match find_if_idx isSep path.reverse with
  | some r => path.length - r
  | none => 0

/-- Embedding of `split_directory_and_file`: the directory is
`string_type(path.begin(), pivot)` (defaulting to `"./"` when empty) and the
filename is `string_type(pivot, path.end())`. -/
def split_directory_and_file (isSep : Char → Bool) (path : List Char) : PathParts :=
  let pivot := pivotIdx isSep path
  let extracted_directory := path.take pivot
  let directory := if extracted_directory.length > 0 then extracted_directory else this_directory
  let filename := path.drop pivot
  ⟨directory, filename⟩

/-- Embedding of `pass_filter`: in single-file mode the candidate passes iff
its filename component equals the recorded `_filename`; otherwise everything
passes. -/
def pass_filter (isSep : Char → Bool) (watching_single_file : Bool)
    (filename : List Char) (file_path : List Char) : Bool :=
  if watching_single_file then
    (split_directory_and_file isSep file_path).filename == filename
  else
    true

/-! ## Notification record decoding (monitor loop, both targets) -/

/-- inotify mask bit `IN_MODIFY`. -/
def IN_MODIFY : Nat := 2
/-- inotify mask bit `IN_MOVED_FROM`. -/
def IN_MOVED_FROM : Nat := 64
/-- inotify mask bit `IN_MOVED_TO`. -/
def IN_MOVED_TO : Nat := 128
/-- inotify mask bit `IN_CREATE`. -/
def IN_CREATE : Nat := 256
/-- inotify mask bit `IN_DELETE`. -/
def IN_DELETE : Nat := 512

/-- the unix `_listen_filters`: `IN_MODIFY | IN_CREATE | IN_DELETE`. -/
def unix_listen_filters : Nat := IN_MODIFY ||| IN_CREATE ||| IN_DELETE

/-- Truth test of `mask & FLAG` in a C++ `if`. -/
def testFlag (mask flag : Nat) : Bool := (mask &&& flag) != 0

/-- One decoded `struct inotify_event`: its mask, its name length field
(`event->len`, zero when the record carries no name) and its name. -/
structure inotify_event where
  mask : Nat
  len : Nat
  name : List Char
deriving DecidableEq

/-- Decoding of a single inotify record by the unix `monitor_directory` body:
records with `event->len == 0` are skipped, the filter is applied, and the
mask is tested against `IN_CREATE`, then `IN_DELETE`, then `IN_MODIFY`, in
that order; any other mask yields nothing. -/
def unix_parse_one (watching_single_file : Bool) (filename : List Char)
    (e : inotify_event) : List (List Char × Event) :=
  if e.len != 0 then
    if pass_filter unixIsSep watching_single_file filename e.name then
      if testFlag e.mask IN_CREATE then [(e.name, Event.added)]
      else if testFlag e.mask IN_DELETE then [(e.name, Event.removed)]
      else if testFlag e.mask IN_MODIFY then [(e.name, Event.modified)]
      else []
    else []
  else []

/-- The unix `monitor_directory` decode loop over one read buffer, already
framed into records (the source walks the byte buffer with
`i += event_size + event->len`); produces `parsed_information` in order. -/
def unix_parse_buffer (watching_single_file : Bool) (filename : List Char) :
    List inotify_event → List (List Char × Event)
  | [] => []
  | e :: rest =>
      unix_parse_one watching_single_file filename e ++
        unix_parse_buffer watching_single_file filename rest

/-- Windows action code `FILE_ACTION_ADDED`. -/
def FILE_ACTION_ADDED : Nat := 1
/-- Windows action code `FILE_ACTION_REMOVED`. -/
def FILE_ACTION_REMOVED : Nat := 2
/-- Windows action code `FILE_ACTION_MODIFIED`. -/
def FILE_ACTION_MODIFIED : Nat := 3
/-- Windows action code `FILE_ACTION_RENAMED_OLD_NAME`. -/
def FILE_ACTION_RENAMED_OLD_NAME : Nat := 4
/-- Windows action code `FILE_ACTION_RENAMED_NEW_NAME`. -/
def FILE_ACTION_RENAMED_NEW_NAME : Nat := 5

/-- One decoded `FILE_NOTIFY_INFORMATION` record: the action code, the file
name (`FileName` with `FileNameLength / 2` characters) and the
`NextEntryOffset` length-framing field (zero marks the terminal record). -/
structure FILE_NOTIFY_INFORMATION where
  Action : Nat
  FileName : List Char
  NextEntryOffset : Nat
deriving DecidableEq

/-- Lookup in the `_event_type_mapping` `std::map`; `map::at` raises
`std::out_of_range` when the action code has no entry, embedded as
`Except.error`. -/
def event_type_mapping_at (action : Nat) : Except Unit Event :=
  if action = FILE_ACTION_ADDED then Except.ok Event.added
  else if action = FILE_ACTION_REMOVED then Except.ok Event.removed
  else if action = FILE_ACTION_MODIFIED then Except.ok Event.modified
  else if action = FILE_ACTION_RENAMED_OLD_NAME then Except.ok Event.renamed_old
  else if action = FILE_ACTION_RENAMED_NEW_NAME then Except.ok Event.renamed_new
  else Except.error ()

/-- The Windows `monitor_directory` decode loop over one buffer: each record
is filtered and mapped (`_event_type_mapping.at` may raise, aborting the
batch), then the loop either stops (`NextEntryOffset == 0`) or advances by
`NextEntryOffset` to the next record. -/
def win_parse_buffer (watching_single_file : Bool) (filename : List Char) :
    List FILE_NOTIFY_INFORMATION → Except Unit (List (List Char × Event))
  | [] => Except.ok []
  | r :: rest =>
      let here : Except Unit (List (List Char × Event)) :=
        if pass_filter winIsSep watching_single_file filename r.FileName then
          match event_type_mapping_at r.Action with
          | Except.ok ev => Except.ok [(r.FileName, ev)]
          | Except.error e => Except.error e
        else Except.ok []
      match here with
      | Except.error e => Except.error e
      | Except.ok hs =>
          if r.NextEntryOffset = 0 then Except.ok hs
          else
            match win_parse_buffer watching_single_file filename rest with
            | Except.error e => Except.error e
            | Except.ok tail => Except.ok (hs ++ tail)

/-! ## Construction (unix `get_directory` and the constructor) -/

/-- Outcomes of the OS calls made during unix construction: the return value
of `inotify_init` (negative on failure), whether `stat` succeeds and reports
a regular file, and the return value of `inotify_add_watch` (negative on
failure). -/
structure UnixOS where
  inotify_init_result : Int
  stat_ok : Bool
  stat_is_reg : Bool
  inotify_add_watch_result : Int
deriving DecidableEq

/-- `struct FolderInfo` of the unix target. -/
structure FolderInfo where
  folder : Int
  watch : Int
deriving DecidableEq

/-- Embedding of `is_file`: throws (`Except.error`) when `stat` fails,
otherwise reports `S_ISREG`. -/
def is_file (os : UnixOS) : Except Unit Bool :=
  if os.stat_ok then Except.ok os.stat_is_reg else Except.error ()

/-- Successful result of unix `get_directory`: the folder/watch descriptors
plus the single-file state it records on the object. -/
structure GetDirOk where
  info : FolderInfo
  watching_single_file : Bool
  filename : List Char
deriving DecidableEq

/-- Embedding of the unix `get_directory`, tracking which inotify descriptors
remain open when it returns or throws: `inotify_init` first (throwing if it
fails, with nothing open), then `is_file` (a `stat` failure throws while the
inotify descriptor is already open and is never closed), then the watch path
selection via `split_directory_and_file`, then `inotify_add_watch` (a failure
throws, again leaving the inotify descriptor open). -/
def get_directory (os : UnixOS) (path : List Char) :
    Except Unit GetDirOk × List Int :=
  if os.inotify_init_result < 0 then (Except.error (), [])
  else
    match is_file os with
    | Except.error e => (Except.error e, [os.inotify_init_result])
    | Except.ok watching =>
        let parsed := split_directory_and_file unixIsSep path
        let fname := if watching then parsed.filename else []
        if os.inotify_add_watch_result < 0 then (Except.error (), [os.inotify_init_result])
        else
          (Except.ok ⟨⟨os.inotify_init_result, os.inotify_add_watch_result⟩, watching, fname⟩,
            [os.inotify_init_result])

/-- Observable outcome of running the `FileWatch` constructor on the unix
target: whether it returned normally, whether the two worker threads were
started, and which inotify descriptors are open when it finishes. -/
structure CtorResult where
  ok : Bool
  threads_started : Bool
  open_fds : List Int
deriving DecidableEq

/-- Embedding of the `FileWatch` constructor: `get_directory` runs in the
member-initializer list, so a throw there propagates before either
`std::thread` is created; on success both threads are started (the single
open descriptor is then owned by the object, not leaked). -/
def FileWatch_ctor (os : UnixOS) (path : List Char) : CtorResult :=
  match get_directory os path with
  | (Except.error _, fds) => ⟨false, false, fds⟩
  | (Except.ok _, fds) => ⟨true, true, fds⟩

/-! ## The dispatcher's per-batch callback loop (`callback_thread`, inner `for`) -/

/-- Outcome of one user-callback invocation: normal return, a raised error
that derives from `std::exception`, or a raised error that does not. -/
inductive CbOutcome where
  | ret
  | throwStd
  | throwOther
deriving DecidableEq

/-- Observable result of the dispatcher's `for` loop over one swapped-out
batch: which events the callback was actually invoked on (in order), and
whether an uncaught error escaped the loop (terminating the dispatcher). -/
structure DispatchResult where
  invoked : List (List Char × Event)
  escaped : Bool
deriving DecidableEq

/-- Embedding of the `for` loop of `callback_thread`: each event is skipped
when `_callback` is empty (`if (_callback)`); otherwise the callback runs
under `try { ... } catch (const std::exception&) {}`, so a
`std::exception`-derived error is discarded and the loop continues, while any
other raised value is not caught and escapes. -/
def run_callbacks (cb : Option ((List Char × Event) → CbOutcome)) :
    List (List Char × Event) → DispatchResult
  | [] => ⟨[], false⟩
  | e :: rest =>
      match cb with
      | none => run_callbacks cb rest
      | some f =>
          match f e with
          | CbOutcome.throwOther => ⟨[e], true⟩
          | _ =>
              let r := run_callbacks cb rest
              ⟨e :: r.invoked, r.escaped⟩

/-! ## Queue / shutdown transition system (monitor, dispatcher, destructor) -/

/-- Control locations of the dispatcher loop (`callback_thread`):
`checkLoop` is the `while (_destory == false)` test, `checkEmpty` the inner
emptiness test under the lock, `waiting` the `cv.wait`, `deliver` the `for`
loop over the swapped-out batch, `exited` the loop exit. -/
inductive DPC where
  | checkLoop
  | checkEmpty
  | waiting
  | deliver (batch : List (List Char × Event))
  | exited
deriving DecidableEq

/-- Shared state of one watch session as seen by the dispatcher: the
`_callback_information` queue, the `_destory` flag, the dispatcher control
location, the events already handed to the `for` loop (`drained`, in order),
and the ghost history of every event ever appended by the monitor (in
append order). -/
structure SysState where
  queue : List (List Char × Event)
  destory : Bool
  pc : DPC
  drained : List (List Char × Event)
  history : List (List Char × Event)
deriving DecidableEq

/-- The batch currently held by the dispatcher's `for` loop, if any. -/
def inFlight : DPC → List (List Char × Event)
  | DPC.deliver b => b
  | _ => []

/-- Interleaved small steps of the session: the monitor may append a decoded
batch (`_callback_information.insert` under the lock) and the destructor may
set `_destory` at any time; the dispatcher moves through its loop as in the
source, swapping the whole queue out (`std::swap`) when it proceeds past the
emptiness test or wakes from `cv.wait` with its predicate
`size() > 0 || _destory` true. -/
inductive Step : SysState → SysState → Prop where
  | enqueue (s : SysState) (b : List (List Char × Event)) :
      Step s { s with queue := s.queue ++ b, history := s.history ++ b }
  | setShutdown (s : SysState) :
      Step s { s with destory := true }
  | loopExit (s : SysState) (h1 : s.pc = DPC.checkLoop) (h2 : s.destory = true) :
      Step s { s with pc := DPC.exited }
  | loopEnter (s : SysState) (h1 : s.pc = DPC.checkLoop) (h2 : s.destory = false) :
      Step s { s with pc := DPC.checkEmpty }
  | beginWait (s : SysState) (h1 : s.pc = DPC.checkEmpty) (h2 : s.queue = [])
      (h3 : s.destory = false) :
      Step s { s with pc := DPC.waiting }
  | swapNow (s : SysState) (h1 : s.pc = DPC.checkEmpty)
      (h2 : ¬ (s.queue = [] ∧ s.destory = false)) :
      Step s { s with pc := DPC.deliver s.queue, queue := [] }
  | wake (s : SysState) (h1 : s.pc = DPC.waiting)
      (h2 : s.queue ≠ [] ∨ s.destory = true) :
      Step s { s with pc := DPC.deliver s.queue, queue := [] }
  | deliverBatch (s : SysState) (l : List (List Char × Event)) (h1 : s.pc = DPC.deliver l) :
      Step s { s with pc := DPC.checkLoop, drained := s.drained ++ l }

/-- Initial state: empty queue, shutdown not requested, dispatcher at the top
of its loop. -/
def init : SysState := ⟨[], false, DPC.checkLoop, [], []⟩

/-- Reachability from the initial state. -/
def Reachable (s : SysState) : Prop := Relation.ReflTransGen Step init s

/-! ## Concrete inputs used by counterexamples and witnesses -/

/-- A sample queued event. -/
def ev_q : List Char × Event := (toL "q", Event.added)

/-- A sample event on which the bad callback raises. -/
def ev_a : List Char × Event := (toL "a", Event.added)

/-- A sample event following `ev_a` in the same batch. -/
def ev_b : List Char × Event := (toL "b", Event.modified)

/-- A callback raising a value not derived from `std::exception` on `ev_a`. -/
def cb_bad : (List Char × Event) → CbOutcome :=
  fun e => if e = ev_a then CbOutcome.throwOther else CbOutcome.ret

/-- A callback always raising a `std::exception`-derived error. -/
def cb_std : (List Char × Event) → CbOutcome := fun _ => CbOutcome.throwStd

/-- Reachable state with the dispatcher exited while an event is queued. -/
def sBad : SysState := ⟨[ev_q], true, DPC.exited, [], [ev_q]⟩

/-- Reachable state with the dispatcher exited after a clean shutdown. -/
def sExit : SysState := ⟨[], true, DPC.exited, [], []⟩

/-- Reachable state after one enqueued event has been drained. -/
def sDone : SysState := ⟨[], false, DPC.checkLoop, [ev_q], [ev_q]⟩

/-- OS outcomes where `inotify_init` returns descriptor 3 and `stat` fails. -/
def osLeak : UnixOS := ⟨3, false, false, 5⟩

/-- A sample constructor path argument. -/
def pathX : List Char := toL "f.txt"

/-- An inotify record whose mask (`IN_ATTRIB`) maps to no handled kind. -/
def attrib_event : inotify_event := ⟨4, 2, toL "zz"⟩

/-- An `IN_MOVED_FROM` inotify record for the old rename name. -/
def moved_from_rec : inotify_event := ⟨64, 5, toL "a.txt"⟩

/-- An `IN_MOVED_TO` inotify record for the new rename name. -/
def moved_to_rec : inotify_event := ⟨128, 5, toL "b.txt"⟩

/-- A Windows record with the unmapped action code 6. -/
def unmapped_record : FILE_NOTIFY_INFORMATION := ⟨6, toL "x", 32⟩

/-- A Windows record with the mapped action code `FILE_ACTION_ADDED`. -/
def mapped_record : FILE_NOTIFY_INFORMATION := ⟨1, toL "y", 0⟩

/-- A Windows `FILE_ACTION_RENAMED_OLD_NAME` record. -/
def rename_old_rec : FILE_NOTIFY_INFORMATION := ⟨4, toL "a.txt", 24⟩

/-- A Windows `FILE_ACTION_RENAMED_NEW_NAME` terminal record. -/
def rename_new_rec : FILE_NOTIFY_INFORMATION := ⟨5, toL "b.txt", 0⟩

/-! ## Helper lemmas -/

/-- A scan finding nothing returns `none`. -/
theorem find_if_idx_eq_none (p : Char → Bool) (l : List Char)
    (h : ∀ c ∈ l, p c = false) : find_if_idx p l = none := by
  induction l with
  | nil => rfl
  | cons c rest ih =>
      simp only [find_if_idx, h c (List.mem_cons_self c rest), Bool.false_eq_true, if_false,
        ih fun x hx => h x (List.mem_cons_of_mem c hx), Option.map_none']

/-- A scan over an unmatched block shifts the index found afterwards. -/
theorem find_if_idx_append (p : Char → Bool) (l1 l2 : List Char)
    (h : ∀ c ∈ l1, p c = false) :
    find_if_idx p (l1 ++ l2) = (find_if_idx p l2).map (· + l1.length) := by
  induction l1 with
  | nil =>
      cases hfi : find_if_idx p l2 <;> simp [hfi]
  | cons c rest ih =>
      have hc : p c = false := h c (List.mem_cons_self c rest)
      have ih2 := ih fun x hx => h x (List.mem_cons_of_mem c hx)
      cases hfi : find_if_idx p l2 <;>
        simp [find_if_idx, hc, ih2, hfi, Nat.add_assoc, Nat.add_comm 1 rest.length]

/-- Taking one past a block keeps the block and the next element. -/
theorem take_append_cons (a b : List Char) (s : Char) :
    (a ++ s :: b).take (a.length + 1) = a ++ [s] := by
  induction a with
  | nil => simp
  | cons x xs ih => simpa using ih

/-- Dropping one past a block drops the block and the next element. -/
theorem drop_append_cons (a b : List Char) (s : Char) :
    (a ++ s :: b).drop (a.length + 1) = b := by
  induction a with
  | nil => simp
  | cons x xs ih => simp [ih]

/-! ## Claim C5 -/

/-- C5: `split_directory_and_file` splits at the last occurrence of a path
separator (the separator predicate being `'/'` on unix and `'\\'` or `'/'` on
Windows): writing the path as `a ++ s :: b` with `s` a separator and no
separator in `b`, the directory is everything up to and including that last
separator and the filename is everything after it; and when the path contains
no separator at all, the directory is exactly `"./"` and the filename is the
whole path. -/
theorem split_directory_and_file_spec (isSep : Char → Bool)
    (path a b : List Char) (s : Char) :
    ((∀ c ∈ path, isSep c = false) →
      split_directory_and_file isSep path = ⟨this_directory, path⟩) ∧
    (isSep s = true → (∀ c ∈ b, isSep c = false) →
      split_directory_and_file isSep (a ++ s :: b) = ⟨a ++ [s], b⟩) := by
  constructor
  · intro h
    have hrev : ∀ c ∈ path.reverse, isSep c = false :=
      fun c hc => h c (List.mem_reverse.mp hc)
    simp [split_directory_and_file, pivotIdx,
      find_if_idx_eq_none isSep path.reverse hrev, this_directory]
  · intro hs hb
    have hrev : (a ++ s :: b).reverse = b.reverse ++ s :: a.reverse := by simp
    have hbrev : ∀ c ∈ b.reverse, isSep c = false :=
      fun c hc => hb c (List.mem_reverse.mp hc)
    have hfind : find_if_idx isSep ((a ++ s :: b).reverse) = some b.length := by
      rw [hrev, find_if_idx_append isSep b.reverse (s :: a.reverse) hbrev]
      simp [find_if_idx, hs]
    have hpivot : pivotIdx isSep (a ++ s :: b) = a.length + 1 := by
      simp only [pivotIdx, hfind, List.length_append, List.length_cons]
      omega
    simp [split_directory_and_file, hpivot, take_append_cons, drop_append_cons]

/-- C5 witness: the theorem applied at concrete paths, on both separator
predicates. -/
theorem split_directory_and_file_spec_witness :
    split_directory_and_file unixIsSep (toL "test.txt") = ⟨this_directory, toL "test.txt"⟩ ∧
    split_directory_and_file unixIsSep (toL "dir" ++ '/' :: toL "b.txt")
      = ⟨toL "dir" ++ ['/'], toL "b.txt"⟩ ∧
    split_directory_and_file winIsSep (toL "dir" ++ '\\' :: toL "b.txt")
      = ⟨toL "dir" ++ ['\\'], toL "b.txt"⟩ :=
  ⟨(split_directory_and_file_spec unixIsSep (toL "test.txt") [] [] ' ').1 (by decide),
   (split_directory_and_file_spec unixIsSep [] (toL "dir") (toL "b.txt") '/').2
     (by decide) (by decide),
   (split_directory_and_file_spec winIsSep [] (toL "dir") (toL "b.txt") '\\').2
     (by decide) (by decide)⟩

/-! ## Claim C6 -/

/-- C6: `pass_filter` accepts every candidate in directory mode
(`watching = false`); in single-file mode it accepts a candidate exactly when
the candidate's filename component, obtained by splitting away any directory
part with `split_directory_and_file`, is literally (character-for-character,
hence case-sensitively) the recorded filter name. -/
theorem pass_filter_spec (isSep : Char → Bool) (watching : Bool)
    (fname cand : List Char) :
    pass_filter isSep watching fname cand = true ↔
      (watching = false ∨ (split_directory_and_file isSep cand).filename = fname) := by
  cases watching <;> simp [pass_filter]

/-! ## Claim C1 -/

/-- C1 counterexample: the dispatcher catches only `const std::exception&`.
A callback raising a value not derived from `std::exception` on the first
event of a batch is not caught at the call site: the error escapes the
dispatch loop and the callback is never invoked on the next event of the
batch, refuting "any error raised by the callback is caught and discarded". -/
theorem callback_other_exception_escapes :
    (run_callbacks (some cb_bad) [ev_a, ev_b]).escaped = true ∧
    ev_b ∉ (run_callbacks (some cb_bad) [ev_a, ev_b]).invoked := by decide

/-- C1 amended: every `std::exception`-derived error raised by the callback
is caught and discarded at the call site, and the dispatcher invokes the
callback on every event of the batch, in order, with nothing escaping; only a
raised value not derived from `std::exception` escapes the loop. -/
theorem callback_std_exceptions_isolated
    (f : (List Char × Event) → CbOutcome) (evs : List (List Char × Event))
    (h : ∀ e, f e ≠ CbOutcome.throwOther) :
    run_callbacks (some f) evs = ⟨evs, false⟩ := by
  induction evs with
  | nil => rfl
  | cons e rest ih =>
      cases hfe : f e with
      | throwOther => exact absurd hfe (h e)
      | ret => simp [run_callbacks, hfe, ih]
      | throwStd => simp [run_callbacks, hfe, ih]

/-- C1 witness: a callback that always raises a `std::exception`-derived
error still gets invoked on both events of a batch and nothing escapes. -/
theorem callback_std_exceptions_isolated_witness :
    run_callbacks (some cb_std) [ev_a, ev_b] = ⟨[ev_a, ev_b], false⟩ :=
  callback_std_exceptions_isolated cb_std [ev_a, ev_b] (fun _ h => nomatch h)

/-! ## Claim C10 -/

/-- C10: when the watcher holds an empty callback function object, the
dispatcher's validity check `if (_callback)` fails for every dequeued event,
so the callback is never entered, every event is silently dropped, and the
loop finishes the batch normally (nothing escapes). -/
theorem null_callback_drops_events (evs : List (List Char × Event)) :
    run_callbacks none evs = ⟨[], false⟩ := by
  induction evs with
  | nil => rfl
  | cons e rest ih => simp only [run_callbacks]; exact ih

/-! ## Claim C3 -/

/-- C3 counterexample: on the Windows target an action code absent from
`_event_type_mapping` is not silently skipped: `map::at` raises
`std::out_of_range`, the batch decode aborts, and the following (well-mapped)
record is never decoded. -/
theorem win_unmapped_action_raises :
    win_parse_buffer false [] [unmapped_record, mapped_record] = Except.error () := rfl

/-- C3 amended: on the unix target a decoded record whose mask carries none
of the handled codes (`IN_CREATE`, `IN_DELETE`, `IN_MODIFY`) is silently
skipped: it produces no event, raises no error, and decoding continues with
the remaining records of the batch; on the Windows target an unmapped action
code instead raises `std::out_of_range` from `map::at`, aborting the batch. -/
theorem unix_unmapped_mask_skipped (watching : Bool) (fname : List Char)
    (e : inotify_event) (rest : List inotify_event)
    (h1 : e.mask &&& IN_CREATE = 0) (h2 : e.mask &&& IN_DELETE = 0)
    (h3 : e.mask &&& IN_MODIFY = 0) :
    unix_parse_buffer watching fname (e :: rest) = unix_parse_buffer watching fname rest := by
  simp [unix_parse_buffer, unix_parse_one, testFlag, h1, h2, h3]

/-- C3 witness: an `IN_ATTRIB` record is skipped and the rest of the batch
is still decoded. -/
theorem unix_unmapped_mask_skipped_witness :
    unix_parse_buffer false [] [attrib_event, ⟨256, 4, toL "b"⟩]
      = unix_parse_buffer false [] [⟨256, 4, toL "b"⟩] ∧
    unix_parse_buffer false [] [⟨256, 4, toL "b"⟩] = [(toL "b", Event.added)] :=
  ⟨unix_unmapped_mask_skipped false [] attrib_event [⟨256, 4, toL "b"⟩]
      (by decide) (by decide) (by decide),
   by decide⟩

/-! ## Claim C4 -/

/-- C4 counterexample: on a path whose attributes cannot be read
(`stat` fails after `inotify_init` returned descriptor 3), construction
fails and starts no threads, but the inotify notification descriptor is
still open when the constructor throws — it is leaked, never closed —
refuting "no OS resources left held by the object". -/
theorem ctor_failure_leaks_fd :
    (FileWatch_ctor osLeak pathX).ok = false ∧
    (FileWatch_ctor osLeak pathX).threads_started = false ∧
    (FileWatch_ctor osLeak pathX).open_fds ≠ [] ∧
    (FileWatch_ctor osLeak pathX).open_fds = [3] := by decide

/-- C4 amended: whenever unix construction fails, the error propagates with
no threads started; but the construction is not resource-atomic: if the
failure happens after `inotify_init` succeeded (unreadable path attributes,
or failed watch registration), the inotify descriptor remains open, and only
a failure of `inotify_init` itself leaves nothing held. -/
theorem ctor_failure_no_threads (os : UnixOS) (path : List Char)
    (h : (FileWatch_ctor os path).ok = false) :
    (FileWatch_ctor os path).threads_started = false ∧
    (FileWatch_ctor os path).open_fds =
      (if os.inotify_init_result < 0 then [] else [os.inotify_init_result]) := by
  unfold FileWatch_ctor get_directory is_file at *
  split_ifs at * <;> simp_all

/-- C4 witness: the amended guarantee at the concrete failing construction. -/
theorem ctor_failure_no_threads_witness :
    (FileWatch_ctor osLeak pathX).threads_started = false ∧
    (FileWatch_ctor osLeak pathX).open_fds =
      (if osLeak.inotify_init_result < 0 then [] else [osLeak.inotify_init_result]) :=
  ctor_failure_no_threads osLeak pathX (by decide)

/-! ## Claim C8 -/

/-- C8 counterexample: on the unix target, the inotify records produced by
renaming `a.txt` to `b.txt` (`IN_MOVED_FROM` for the old name, `IN_MOVED_TO`
for the new name) decode to no events at all — not to the claimed
`(a.txt, renamed_old)` / `(b.txt, renamed_new)` pair of callbacks. -/
theorem unix_rename_produces_no_events :
    unix_parse_buffer false [] [moved_from_rec, moved_to_rec] = [] ∧
    unix_parse_buffer false [] [moved_from_rec, moved_to_rec]
      ≠ [(toL "a.txt", Event.renamed_old), (toL "b.txt", Event.renamed_new)] := by decide

/-- C8 amended: only on the Windows target does renaming `a.txt` to `b.txt`
produce exactly the two callbacks, in order, `(a.txt, renamed_old)` then
`(b.txt, renamed_new)` (with no pairing metadata in the event type); on the
unix target the rename records decode to nothing, and indeed the registered
inotify mask `_listen_filters` does not even include `IN_MOVED_FROM` or
`IN_MOVED_TO`. -/
theorem rename_two_events_windows_only :
    win_parse_buffer false [] [rename_old_rec, rename_new_rec]
      = Except.ok [(toL "a.txt", Event.renamed_old), (toL "b.txt", Event.renamed_new)] ∧
    unix_parse_buffer false [] [moved_from_rec, moved_to_rec] = [] ∧
    IN_MOVED_FROM &&& unix_listen_filters = 0 ∧
    IN_MOVED_TO &&& unix_listen_filters = 0 := ⟨rfl, rfl, rfl, rfl⟩

/-! ## Claim C9 -/

/-- C9: the Windows decode loop advances through the variable-length records
by each record's `NextEntryOffset` length field, and a record carrying the
zero terminal offset ends the batch: whatever junk follows it in the buffer
is never decoded, while every record up to and including the terminal one is
decoded as usual. -/
theorem win_zero_offset_terminates_batch (watching : Bool) (fname : List Char)
    (l1 : List FILE_NOTIFY_INFORMATION) (t : FILE_NOTIFY_INFORMATION)
    (junk : List FILE_NOTIFY_INFORMATION) (h : t.NextEntryOffset = 0) :
    win_parse_buffer watching fname (l1 ++ t :: junk)
      = win_parse_buffer watching fname (l1 ++ [t]) := by
  induction l1 with
  | nil => simp only [List.nil_append, win_parse_buffer, h, if_true]
  | cons r rs ih =>
      simp only [List.cons_append, win_parse_buffer, List.append_eq, ih]

/-- C9 witness: a two-record batch followed by junk decodes exactly as the
junk-free batch. -/
theorem win_zero_offset_terminates_batch_witness :
    win_parse_buffer false [] ([mapped_record] ++ rename_new_rec :: [unmapped_record])
      = win_parse_buffer false [] ([mapped_record] ++ [rename_new_rec]) :=
  win_zero_offset_terminates_batch false [] [mapped_record] rename_new_rec
    [unmapped_record] (by decide)

/-! ## Claims C2 and C7: reachability reasoning -/

/-- Invariance principle for states reachable from `init`. -/
theorem reachable_rec (P : SysState → Prop) (h0 : P init)
    (hstep : ∀ s s', P s → Step s s' → P s') (s : SysState) (h : Reachable s) :
    P s := by
  induction h with
  | refl => exact h0
  | tail _ hst ih => exact hstep _ _ ih hst

/-- Every step keeps "drained events, then the in-flight batch, then the
queue" equal to the full enqueue history. -/
theorem step_keeps_order (s s' : SysState)
    (h : s.drained ++ (inFlight s.pc ++ s.queue) = s.history)
    (hs : Step s s') :
    s'.drained ++ (inFlight s'.pc ++ s'.queue) = s'.history := by
  cases hs with
  | enqueue b =>
      show s.drained ++ (inFlight s.pc ++ (s.queue ++ b)) = s.history ++ b
      rw [← h]; simp [List.append_assoc]
  | setShutdown => exact h
  | loopExit h1 h2 =>
      show s.drained ++ (inFlight DPC.exited ++ s.queue) = s.history
      rw [h1] at h; simpa [inFlight] using h
  | loopEnter h1 h2 =>
      show s.drained ++ (inFlight DPC.checkEmpty ++ s.queue) = s.history
      rw [h1] at h; simpa [inFlight] using h
  | beginWait h1 h2 h3 =>
      show s.drained ++ (inFlight DPC.waiting ++ s.queue) = s.history
      rw [h1] at h; simpa [inFlight] using h
  | swapNow h1 h2 =>
      show s.drained ++ (inFlight (DPC.deliver s.queue) ++ []) = s.history
      rw [h1] at h; simpa [inFlight] using h
  | wake h1 h2 =>
      show s.drained ++ (inFlight (DPC.deliver s.queue) ++ []) = s.history
      rw [h1] at h; simpa [inFlight] using h
  | deliverBatch l h1 =>
      show (s.drained ++ l) ++ (inFlight DPC.checkLoop ++ s.queue) = s.history
      rw [h1] at h; simpa [inFlight, List.append_assoc] using h

/-- Every step keeps "an exited dispatcher implies the shutdown flag". -/
theorem step_keeps_exit_flag (s s' : SysState)
    (h : s.pc = DPC.exited → s.destory = true) (hs : Step s s') :
    s'.pc = DPC.exited → s'.destory = true := by
  cases hs with
  | enqueue b => exact h
  | setShutdown => exact fun _ => rfl
  | loopExit h1 h2 => exact fun _ => h2
  | loopEnter h1 h2 => exact fun hx => nomatch hx
  | beginWait h1 h2 h3 => exact fun hx => nomatch hx
  | swapNow h1 h2 => exact fun hx => nomatch hx
  | wake h1 h2 => exact fun hx => nomatch hx
  | deliverBatch l h1 => exact fun hx => nomatch hx

/-- C7: in every reachable state of the session, the events already handed
to the callback loop (`drained`), followed by the batch currently being
iterated and the events still queued, are exactly the sequence of events the
monitor appended, in append (i.e. decode) order; in particular the dispatch
order is always an order-preserving prefix of the decode order — appending
each batch under the lock, swapping the whole pending sequence out, and
iterating it introduces no reordering anywhere between enqueue and dispatch. -/
theorem arrival_order_preserved (s : SysState) (h : Reachable s) :
    s.drained ++ (inFlight s.pc ++ s.queue) = s.history ∧
    ∃ rest, s.history = s.drained ++ rest := by
  have key :=
    reachable_rec (fun s => s.drained ++ (inFlight s.pc ++ s.queue) = s.history)
      rfl step_keeps_order s h
  exact ⟨key, inFlight s.pc ++ s.queue, key.symm⟩

/-- C7 witness: the order invariant at a concrete reachable state in which
one enqueued event has been swapped out and handed to the callback loop. -/
theorem arrival_order_preserved_witness :
    sDone.drained ++ (inFlight sDone.pc ++ sDone.queue) = sDone.history ∧
    ∃ rest, sDone.history = sDone.drained ++ rest := by
  refine arrival_order_preserved sDone ?_
  have t1 : Step init ⟨[ev_q], false, DPC.checkLoop, [], [ev_q]⟩ :=
    Step.enqueue init [ev_q]
  have t2 : Step ⟨[ev_q], false, DPC.checkLoop, [], [ev_q]⟩
      ⟨[ev_q], false, DPC.checkEmpty, [], [ev_q]⟩ :=
    Step.loopEnter _ rfl rfl
  have t3 : Step ⟨[ev_q], false, DPC.checkEmpty, [], [ev_q]⟩
      ⟨[], false, DPC.deliver [ev_q], [], [ev_q]⟩ :=
    Step.swapNow _ rfl (by decide)
  have t4 : Step ⟨[], false, DPC.deliver [ev_q], [], [ev_q]⟩ sDone :=
    Step.deliverBatch _ [ev_q] rfl
  exact Relation.ReflTransGen.tail
    (Relation.ReflTransGen.tail
      (Relation.ReflTransGen.tail
        (Relation.ReflTransGen.tail Relation.ReflTransGen.refl t1) t2) t3) t4

/-- C2 counterexample: a reachable state in which the dispatcher loop has
exited while the queue still holds an enqueued, never-dispatched event and
nothing was drained. The interleaving: the monitor appends an event, the
destructor sets `_destory`, and the dispatcher then evaluates
`while (_destory == false)` — which only consults the flag, not the queue —
and exits, so the enqueued event is never delivered even though the
destructor joins both threads before returning. -/
theorem dispatcher_exit_nonempty_queue :
    Reachable sBad ∧ sBad.pc = DPC.exited ∧ sBad.queue ≠ [] ∧ sBad.drained = [] := by
  refine ⟨?_, rfl, by decide, rfl⟩
  have t1 : Step init ⟨[ev_q], false, DPC.checkLoop, [], [ev_q]⟩ :=
    Step.enqueue init [ev_q]
  have t2 : Step ⟨[ev_q], false, DPC.checkLoop, [], [ev_q]⟩
      ⟨[ev_q], true, DPC.checkLoop, [], [ev_q]⟩ :=
    Step.setShutdown _
  have t3 : Step ⟨[ev_q], true, DPC.checkLoop, [], [ev_q]⟩ sBad :=
    Step.loopExit _ rfl rfl
  exact Relation.ReflTransGen.tail
    (Relation.ReflTransGen.tail
      (Relation.ReflTransGen.tail Relation.ReflTransGen.refl t1) t2) t3

/-- C2 amended: the dispatcher loop exits only after the shutdown flag has
been set — but not necessarily with an empty queue: the `while` condition
consults only `_destory`, so events enqueued after the final swap and before
the loop-condition check can be left undelivered when the destructor
returns. -/
theorem dispatcher_exit_requires_shutdown (s : SysState) (h : Reachable s)
    (hpc : s.pc = DPC.exited) : s.destory = true :=
  reachable_rec (fun s => s.pc = DPC.exited → s.destory = true)
    (fun hx => nomatch hx) step_keeps_exit_flag s h hpc

/-- C2 witness: the amended guarantee at a concrete reachable exited state. -/
theorem dispatcher_exit_requires_shutdown_witness : sExit.destory = true := by
  refine dispatcher_exit_requires_shutdown sExit ?_ rfl
  have t1 : Step init ⟨[], true, DPC.checkLoop, [], []⟩ := Step.setShutdown init
  have t2 : Step ⟨[], true, DPC.checkLoop, [], []⟩ sExit := Step.loopExit _ rfl rfl
  exact Relation.ReflTransGen.tail
    (Relation.ReflTransGen.tail Relation.ReflTransGen.refl t1) t2

end Filewatch
